import Mathlib

/-!
Verification of `Proscan/scripts/create_docx_template.py`.

The script builds a one-page DOCX template with the python-docx library:
it narrows the page margins of every section to half an inch, inserts three
paragraphs carrying 1pt template-marker runs, and saves the document to a
fixed relative path.  The `__main__` block wraps the call in a
`try/except ImportError/except Exception` ladder that prints a message and
exits with code 1 on failure.

The embedding below models the python-docx objects the script touches
(documents, sections, paragraphs, runs, fonts, lengths in EMU), the
construction performed by `create_template`, and the observable behaviour of
one process run of the script (stdout lines, exit code, filesystem writes,
number of `create_template` calls), parameterised by the environment the run
faces: whether python-docx is importable and whether `doc.save` raises.

One point of Python semantics matters: the `from docx import ...` statements
sit at module top level, so when python-docx is missing the ImportError is
raised while the module is being imported, before the `try` block of
`__main__` ever executes.  The interpreter then prints a traceback to stderr
and exits with code 1; the `except ImportError` handler never runs.  The
model keeps that handler (it is reachable in `main_block` for an ImportError
escaping `create_template`, which never happens) and routes a missing
dependency around `main_block` entirely, exactly as the interpreter does.
-/

namespace CreateDocxTemplate

/-- Paragraph-alignment enumeration `WD_ALIGN_PARAGRAPH` from
`docx.enum.text`; the script only ever assigns `CENTER`. -/
inductive WD_ALIGN_PARAGRAPH where
  | LEFT
  | CENTER
  | RIGHT
  | JUSTIFY
  deriving DecidableEq, Repr

/-- English Metric Units per inch, the base unit of python-docx `Length`. -/
def EMU_PER_INCH : Int := 914400

/-- English Metric Units per typographic point. -/
def EMU_PER_PT : Int := 12700

/-- The length constructor `docx.shared.Inches`: python-docx computes
`int(x * 914400)` (truncation toward zero), here as exact integer
arithmetic on the rational `x`. -/
def Inches (x : ℚ) : Int := x.num * EMU_PER_INCH / x.den

/-- The length constructor `docx.shared.Pt`: `n` points in EMU. -/
def Pt (n : Nat) : Int := n * EMU_PER_PT

/-- The slice of a run font the script touches: `font.size` is `None`
until assigned a `Length`. -/
structure Font where
  size : Option Int
  deriving DecidableEq, Repr

/-- A text run inside a paragraph. -/
structure Run where
  text : String
  font : Font
  deriving DecidableEq, Repr

/-- A body paragraph: its runs and its alignment (`none` means no explicit
alignment, i.e. the inherited default). -/
structure Paragraph where
  runs : List Run
  alignment : Option WD_ALIGN_PARAGRAPH
  deriving DecidableEq, Repr

/-- `Paragraph.text` in python-docx: the concatenation of the texts of the
paragraph runs. -/
def Paragraph.text (p : Paragraph) : String :=
  String.join (p.runs.map Run.text)

/-- A document section with its four page margins, in EMU. -/
structure DocSection where
  top_margin : Int
  bottom_margin : Int
  left_margin : Int
  right_margin : Int
  deriving DecidableEq, Repr

/-- The document model: its sections and its body paragraphs. -/
structure DocxDocument where
  sections : List DocSection
  paragraphs : List Paragraph
  deriving DecidableEq, Repr

/-- `Document()`: the python-docx default template, one section with
one-inch margins on all four sides and an empty body. -/
def Document_new : DocxDocument :=
  { sections := [{ top_margin := Inches 1, bottom_margin := Inches 1,
                   left_margin := Inches 1, right_margin := Inches 1 }],
    paragraphs := [] }

/-- The fixed relative output path hard-coded in `create_template`. -/
def output_path : String := "../assets/docx/document_template.docx"

/-- First marker text, `\x7b% for page in pages %\x7d`. -/
def marker_for_pages : String := "\x7b% for page in pages %\x7d"

/-- Second marker text, `\x7b\x7b%img\x7d\x7d`. -/
def marker_img : String := "\x7b\x7b%img\x7d\x7d"

/-- Third marker text, `\x7b% endfor %\x7d`. -/
def marker_endfor : String := "\x7b% endfor %\x7d"

/-- Body of the margin loop `for section in sections:` in
`create_template`: all four margins are assigned `Inches(0.5)`. -/
def set_section_margins (s : DocSection) : DocSection :=
  { s with top_margin := Inches (1/2), bottom_margin := Inches (1/2),
           left_margin := Inches (1/2), right_margin := Inches (1/2) }

/-- The document value built by `create_template` before `doc.save`,
following the statement order of the script.  Each Python statement
mutates an object in place; here every object is built by functional
update in the same order and the finished paragraphs are appended to the
document body, which yields the same final document state. -/
def create_template_doc : DocxDocument :=
  let doc := Document_new
  let doc := { doc with sections := doc.sections.map set_section_margins }
  let p : Paragraph := { runs := [], alignment := none }
  let p := { p with alignment := some WD_ALIGN_PARAGRAPH.CENTER }
  let run1 : Run := { text := marker_for_pages, font := { size := none } }
  let run1 := { run1 with font := { size := some (Pt 1) } }
  let p := { p with runs := p.runs ++ [run1] }
  let p2 : Paragraph := { runs := [], alignment := none }
  let p2 := { p2 with alignment := some WD_ALIGN_PARAGRAPH.CENTER }
  let run2 : Run := { text := marker_img, font := { size := none } }
  let run2 := { run2 with font := { size := some (Pt 1) } }
  let p2 := { p2 with runs := p2.runs ++ [run2] }
  let p3 : Paragraph := { runs := [], alignment := none }
  let run3 : Run := { text := marker_endfor, font := { size := none } }
  let run3 := { run3 with font := { size := some (Pt 1) } }
  let p3 := { p3 with runs := p3.runs ++ [run3] }
  { doc with paragraphs := doc.paragraphs ++ [p, p2, p3] }

/-- The environment one process run of the script faces: whether the
python-docx package is importable, and whether `doc.save` raises an
exception (with that exception message). -/
structure Env where
  docx_installed : Bool
  save_error : Option String
  deriving DecidableEq, Repr

/-- A Python exception escaping `create_template`. -/
inductive PyError where
  | importError
  | exception (msg : String)
  deriving DecidableEq, Repr

/-- A filesystem modification performed by the script. -/
inductive FsOp where
  | write (path : String)
  | delete (path : String)
  deriving DecidableEq, Repr

/-- One call of `create_template()` in environment `env`: the document
construction is a fixed sequence of library calls, then
`doc.save(output_path)` either writes the file or raises the exception the
environment imposes (an unwritable output directory raises before anything
is written), and on success the two report lines are printed.  Returns the
outcome, the stdout lines printed, and the filesystem modifications
performed. -/
def create_template (env : Env) :
    Except PyError DocxDocument × List String × List FsOp :=
  let doc := create_template_doc
  match env.save_error with
  | some msg => (Except.error (PyError.exception msg), [], [])
  | none =>
      (Except.ok doc,
       ["✓ Template created successfully at: " ++ output_path,
        "  This template can now be used by the Flutter app to generate DOCX files."],
       [FsOp.write output_path])

/-- The observable outcome of one process run of the script. -/
structure ScriptResult where
  stdout : List String
  exit_code : Nat
  fs_ops : List FsOp
  create_template_calls : Nat
  deriving DecidableEq, Repr

/-- The `__main__` block: one `create_template()` call
under `try`, with an `except ImportError` arm printing the two
dependency-missing lines and an `except Exception as e` arm printing
`Error creating template: ` followed by the message, both calling
`exit(1)`; the success path falls off the end of the script (implicit
exit code 0). -/
def main_block (env : Env) : ScriptResult :=
  match create_template env with
  | (Except.ok _, outs, ops) =>
      { stdout := outs, exit_code := 0, fs_ops := ops,
        create_template_calls := 1 }
  | (Except.error PyError.importError, outs, ops) =>
      { stdout := outs ++ ["Error: python-docx is not installed.",
                           "Install it with: pip install python-docx"],
        exit_code := 1, fs_ops := ops, create_template_calls := 1 }
  | (Except.error (PyError.exception msg), outs, ops) =>
      { stdout := outs ++ ["Error creating template: " ++ msg],
        exit_code := 1, fs_ops := ops, create_template_calls := 1 }

/-- One process run of the script.  The module-level
`from docx import ...` statements run before `__main__`; when python-docx
is missing they raise an uncaught ImportError, so the interpreter prints a
traceback to stderr and exits with code 1 without entering `main_block`
and with nothing on stdout.  Only when the import succeeds does the
guarded `__main__` block run. -/
def run_script (env : Env) : ScriptResult :=
  if env.docx_installed then main_block env
  else { stdout := [], exit_code := 1, fs_ops := [],
         create_template_calls := 0 }


/-- C1: with python-docx missing the process does exit with code 1, but the
dependency-missing message with install instructions is never printed: the
ImportError is raised by the module-level import, before the `__main__`
handler can run, so stdout stays empty (the interpreter prints a traceback
to stderr instead).  This evaluates the script at the failing environment. -/
theorem C1_missing_dependency_no_message :
    run_script { docx_installed := false, save_error := none } =
      { stdout := [], exit_code := 1, fs_ops := [],
        create_template_calls := 0 } ∧
    "Error: python-docx is not installed." ∉
      (run_script { docx_installed := false, save_error := none }).stdout ∧
    "Install it with: pip install python-docx" ∉
      (run_script { docx_installed := false, save_error := none }).stdout := by
  refine ⟨rfl, ?_, ?_⟩ <;> simp [run_script]

/-- C2: the produced document has exactly three paragraphs, their texts are
exactly the three marker strings in order, and each paragraph consists of a
single run whose text is the marker and whose font size is `Pt 1`, so every
run carrying a marker has font size 1pt. -/
theorem C2_marker_paragraphs_and_sizes :
    create_template_doc.paragraphs.map Paragraph.text =
      [marker_for_pages, marker_img, marker_endfor] ∧
    create_template_doc.paragraphs.map
        (fun p => p.runs.map (fun r => (r.text, r.font.size))) =
      [[(marker_for_pages, some (Pt 1))], [(marker_img, some (Pt 1))],
       [(marker_endfor, some (Pt 1))]] := by
  exact ⟨rfl, rfl⟩

/-- C3: the produced document has exactly one section and its top, bottom,
left and right margins all equal `Inches (1/2)`, which is 457200 EMU, half
of the 914400 EMU of an inch. -/
theorem C3_half_inch_margins :
    create_template_doc.sections.map
        (fun s => (s.top_margin, s.bottom_margin, s.left_margin,
                   s.right_margin)) =
      [(Inches (1/2), Inches (1/2), Inches (1/2), Inches (1/2))] ∧
    Inches (1/2) = 457200 := by
  refine ⟨rfl, ?_⟩
  norm_num [Inches, EMU_PER_INCH]

/-- C4: when an exception with message `msg` is raised during document
construction or save (here at `doc.save`, e.g. an unwritable output
directory), the script prints `Error creating template: ` followed by that
message and exits with code 1. -/
theorem C4_exception_prints_message_exits_one (msg : String) :
    run_script { docx_installed := true, save_error := some msg } =
      { stdout := ["Error creating template: " ++ msg], exit_code := 1,
        fs_ops := [], create_template_calls := 1 } := by
  rfl

/-- C4 witness: the theorem applied to the concrete message
`Permission denied`. -/
theorem C4_witness :
    run_script { docx_installed := true,
                 save_error := some "Permission denied" } =
      { stdout := ["Error creating template: " ++ "Permission denied"],
        exit_code := 1, fs_ops := [], create_template_calls := 1 } :=
  C4_exception_prints_message_exits_one "Permission denied"

/-- C5: on every successful run (dependency importable, save succeeds) the
script writes exactly one file, at the fixed relative path
`../assets/docx/document_template.docx`, and nothing else. -/
theorem C5_single_fixed_save (env : Env) (h1 : env.docx_installed = true)
    (h2 : env.save_error = none) :
    (run_script env).fs_ops = [FsOp.write output_path] ∧
    output_path = "../assets/docx/document_template.docx" := by
  obtain ⟨di, se⟩ := env
  cases di with
  | false => exact Bool.noConfusion h1
  | true =>
    cases se with
    | some m => exact Option.noConfusion h2
    | none => exact ⟨rfl, rfl⟩

/-- C5 witness: the theorem applied to the concrete successful
environment. -/
theorem C5_witness :
    (run_script { docx_installed := true, save_error := none }).fs_ops =
      [FsOp.write output_path] ∧
    output_path = "../assets/docx/document_template.docx" :=
  C5_single_fixed_save { docx_installed := true, save_error := none } rfl rfl

/-- C6: on every run where `create_template` completes without raising, the
script prints the two success messages and the process ends with exit code
0 (implicit: no exit call on the success path). -/
theorem C6_success_messages_exit_zero (env : Env)
    (h1 : env.docx_installed = true) (h2 : env.save_error = none) :
    (run_script env).stdout =
      ["✓ Template created successfully at: " ++ output_path,
       "  This template can now be used by the Flutter app to generate DOCX files."] ∧
    (run_script env).exit_code = 0 := by
  obtain ⟨di, se⟩ := env
  cases di with
  | false => exact Bool.noConfusion h1
  | true =>
    cases se with
    | some m => exact Option.noConfusion h2
    | none => exact ⟨rfl, rfl⟩

/-- C6 witness: the theorem applied to the concrete successful
environment. -/
theorem C6_witness :
    (run_script { docx_installed := true, save_error := none }).stdout =
      ["✓ Template created successfully at: " ++ output_path,
       "  This template can now be used by the Flutter app to generate DOCX files."] ∧
    (run_script { docx_installed := true, save_error := none }).exit_code =
      0 :=
  C6_success_messages_exit_zero { docx_installed := true, save_error := none }
    rfl rfl

/-- C7: the three marker paragraphs appear in document order: the for-loop
opener first, the image placeholder second, the loop closer third. -/
theorem C7_marker_order :
    create_template_doc.paragraphs.map Paragraph.text =
      ["\x7b% for page in pages %\x7d", "\x7b\x7b%img\x7d\x7d",
       "\x7b% endfor %\x7d"] := by
  rfl

/-- C8: on every failing run (exit code 1) the script called
`create_template` at most once and performed no filesystem modification at
all: no retry, no partially written output, no delete or cleanup; the
error-handling path only prints and exits. -/
theorem C8_no_retry_no_cleanup (env : Env)
    (h : (run_script env).exit_code = 1) :
    (run_script env).create_template_calls ≤ 1 ∧
    (run_script env).fs_ops = [] ∧
    ∀ op ∈ (run_script env).fs_ops, ∀ path, op ≠ FsOp.delete path := by
  obtain ⟨di, se⟩ := env
  cases di with
  | false =>
    cases se with
    | none => exact ⟨Nat.zero_le 1, rfl, by simp [run_script]⟩
    | some m => exact ⟨Nat.zero_le 1, rfl, by simp [run_script]⟩
  | true =>
    cases se with
    | none => exact absurd h (by decide)
    | some m =>
      refine ⟨Nat.le_refl 1, rfl, ?_⟩
      simp [run_script, main_block, create_template]

/-- C8 witness: the theorem applied to the concrete failing environment in
which python-docx is missing. -/
theorem C8_witness :
    (run_script { docx_installed := false,
                  save_error := none }).create_template_calls ≤ 1 ∧
    (run_script { docx_installed := false, save_error := none }).fs_ops =
      [] ∧
    ∀ op ∈ (run_script { docx_installed := false,
                         save_error := none }).fs_ops,
      ∀ path, op ≠ FsOp.delete path :=
  C8_no_retry_no_cleanup { docx_installed := false, save_error := none } rfl

/-- C9: the first and second marker paragraphs are center-aligned and the
third has no alignment set, keeping the default. -/
theorem C9_alignment_pattern :
    create_template_doc.paragraphs.map Paragraph.alignment =
      [some WD_ALIGN_PARAGRAPH.CENTER, some WD_ALIGN_PARAGRAPH.CENTER,
       none] := by
  rfl

/-- C10: `create_template` is deterministic and takes no input: any two
runs in environments where the save succeeds have identical outcomes, the
constructed document is the one fixed `create_template_doc` (fixing the
section margins, paragraph texts, alignments and run font sizes), and the
output path is the one fixed path. -/
theorem C10_deterministic (e1 e2 : Env) (h1 : e1.save_error = none)
    (h2 : e2.save_error = none) :
    create_template e1 = create_template e2 ∧
    (create_template e1).1 = Except.ok create_template_doc ∧
    (create_template e1).2.2 = [FsOp.write output_path] := by
  obtain ⟨d1, s1⟩ := e1
  obtain ⟨d2, s2⟩ := e2
  cases s1 with
  | some m => exact Option.noConfusion h1
  | none =>
    cases s2 with
    | some m => exact Option.noConfusion h2
    | none => exact ⟨rfl, rfl, rfl⟩

/-- C10 witness: the theorem applied to two distinct concrete
environments. -/
theorem C10_witness :
    create_template { docx_installed := true, save_error := none } =
      create_template { docx_installed := false, save_error := none } ∧
    (create_template { docx_installed := true, save_error := none }).1 =
      Except.ok create_template_doc ∧
    (create_template { docx_installed := true,
                       save_error := none }).2.2 =
      [FsOp.write output_path] :=
  C10_deterministic { docx_installed := true, save_error := none }
    { docx_installed := false, save_error := none } rfl rfl

end CreateDocxTemplate
